import Mathlib

/-!
# OpenHMD device-abstraction core: formal model and verification

This file embeds the public surface of OpenHMD (`src/include/openhmd.h`)
and the device-abstraction core it declares.  The repository snapshot ships
only the public header; the C translation unit implementing the context /
enumeration / dispatch logic is not present, so every behavioural
definition below is modelled from the specification (its doc comment says
so explicitly), while the enumerations and constants are transcribed
directly from the header.

Machine integers: the C `int` return codes are modelled as `Int`; float
buffers never undergo arithmetic in the core (the core only moves them
between driver state and caller buffers), so their element type is
modelled by the opaque-enough carrier `Int`.
-/

set_option autoImplicit false

namespace OpenHMD

/-- `#define OHMD_STR_SIZE 256` — transcribed from src/include/openhmd.h line 29. -/
def OHMD_STR_SIZE : Nat := 256

/-- `ohmd_string_value` — transcribed from src/include/openhmd.h lines 31-35. -/
inductive ohmd_string_value where
  | OHMD_VENDOR
  | OHMD_PRODUCT
  | OHMD_PATH
deriving DecidableEq, Repr, Fintype

/-- Numeric enumerator values of `ohmd_string_value` as given in the header. -/
def ohmd_string_value.code : ohmd_string_value → Nat
  | .OHMD_VENDOR => 0
  | .OHMD_PRODUCT => 1
  | .OHMD_PATH => 2

/-- `ohmd_float_value` — transcribed from src/include/openhmd.h lines 37-66.
The two aspect-ratio enumerators are named `OHMD_LEFT_EYE_ASPECT` and
`OHMD_RIGHT_EYE_ASPECT` here (the header suffixes them with an extra
underscored word); their numeric codes 12 and 14 are kept exactly. -/
inductive ohmd_float_value where
  | OHMD_ROTATION_QUAT
  | OHMD_LEFT_EYE_GL_MODELVIEW_MATRIX
  | OHMD_RIGHT_EYE_GL_MODELVIEW_MATRIX
  | OHMD_LEFT_EYE_GL_PROJECTION_MATRIX
  | OHMD_RIGHT_EYE_GL_PROJECTION_MATRIX
  | OHMD_POSITION_VECTOR
  | OHMD_SCREEN_HORIZONTAL_SIZE
  | OHMD_SCREEN_VERTICAL_SIZE
  | OHMD_LENS_HORIZONTAL_SEPARATION
  | OHMD_LENS_VERTICAL_POSITION
  | OHMD_LEFT_EYE_FOV
  | OHMD_LEFT_EYE_ASPECT
  | OHMD_RIGHT_EYE_FOV
  | OHMD_RIGHT_EYE_ASPECT
  | OHMD_EYE_IPD
  | OHMD_PROJECTION_ZFAR
  | OHMD_PROJECTION_ZNEAR
  | OHMD_DISTORTION_K
deriving DecidableEq, Repr, Fintype

/-- Numeric enumerator values of `ohmd_float_value` as given in the header
(lines 38-65): consecutive values 1 .. 18. -/
def ohmd_float_value.code : ohmd_float_value → Nat
  | .OHMD_ROTATION_QUAT => 1
  | .OHMD_LEFT_EYE_GL_MODELVIEW_MATRIX => 2
  | .OHMD_RIGHT_EYE_GL_MODELVIEW_MATRIX => 3
  | .OHMD_LEFT_EYE_GL_PROJECTION_MATRIX => 4
  | .OHMD_RIGHT_EYE_GL_PROJECTION_MATRIX => 5
  | .OHMD_POSITION_VECTOR => 6
  | .OHMD_SCREEN_HORIZONTAL_SIZE => 7
  | .OHMD_SCREEN_VERTICAL_SIZE => 8
  | .OHMD_LENS_HORIZONTAL_SEPARATION => 9
  | .OHMD_LENS_VERTICAL_POSITION => 10
  | .OHMD_LEFT_EYE_FOV => 11
  | .OHMD_LEFT_EYE_ASPECT => 12
  | .OHMD_RIGHT_EYE_FOV => 13
  | .OHMD_RIGHT_EYE_ASPECT => 14
  | .OHMD_EYE_IPD => 15
  | .OHMD_PROJECTION_ZFAR => 16
  | .OHMD_PROJECTION_ZNEAR => 17
  | .OHMD_DISTORTION_K => 18

/-- `ohmd_int_value` — transcribed from src/include/openhmd.h lines 68-72. -/
inductive ohmd_int_value where
  | OHMD_SCREEN_HORIZONTAL_RESOLUTION
  | OHMD_SCREEN_VERTICAL_RESOLUTION
deriving DecidableEq, Repr, Fintype

/-- Numeric enumerator values of `ohmd_int_value` as given in the header. -/
def ohmd_int_value.code : ohmd_int_value → Nat
  | .OHMD_SCREEN_HORIZONTAL_RESOLUTION => 0
  | .OHMD_SCREEN_VERTICAL_RESOLUTION => 1

/-- The two value classes of the key space (spec §3: keys are "partitioned
into exactly two value classes (float-valued, integer-valued)"). -/
inductive value_class where
  | floatClass
  | intClass
deriving DecidableEq, Repr, Fintype

/-- The whole value-key space: a key is an enumerator of one of the two
value enumerations.  The public C surface passes the raw enumerator, so a
caller may hand a key of either enumeration to any accessor (via a cast);
the dispatcher must validate the class (spec §3, §4.2). -/
inductive ohmd_value_key where
  | floatKey (k : ohmd_float_value)
  | intKey (k : ohmd_int_value)
deriving DecidableEq, Repr, Fintype

/-- The value class a key belongs to. -/
def key_class : ohmd_value_key → value_class
  | .floatKey _ => .floatClass
  | .intKey _ => .intClass

/-- The numeric enumerator code of a key, as the header assigns it. -/
def key_code : ohmd_value_key → Nat
  | .floatKey k => k.code
  | .intKey k => k.code

/-- Modelled from the spec: the driver-private device state (spec §3
"Device Handle": driver-private opaque state plus cached static float/int
properties).  The C struct behind `ohmd_device` is not in src/; the model
flattens cached and live properties into two association lists (the
cache/live split is an implementation detail no observable contract
depends on), records which float keys the driver supports setting
(spec §4.2 "Setters are only meaningful for a subset of keys"), and
whether a close of this state reports success (spec §6 `close(state)`
with §7 "one handle fails to close cleanly"). -/
structure DriverState where
  fprops : List (ohmd_float_value × List Int)
  iprops : List (ohmd_int_value × List Int)
  fset : List ohmd_float_value
  closeOk : Bool
deriving DecidableEq, Repr

/-- Modelled from the spec: the driver plug-in capability contract
(spec §6), the only FFI-like boundary in scope.  `discover` returns the
candidate `(vendor, product, path)` triples, `none` standing for a driver
that fails to enumerate; `openDev` is `open(path)`, `none` standing for
failure; `tick` is the per-tick `update(state)` hook; `closeDev` reports
whether `close(state)` succeeded.  The concrete drivers live outside the
core, so the model quantifies over arbitrary inhabitants. -/
structure Driver where
  discover : Option (List (String × String × String))
  openDev : String → Option DriverState
  tick : DriverState → DriverState
  closeDev : DriverState → Bool

/-- Modelled from the spec: one enumeration entry (spec §3 "Enumeration
Entry": vendor name, product name, driver-specific path, reference to the
owning driver).  The owning driver is referenced by its index in the
context's immutable driver registry. -/
structure ohmd_device_desc where
  vendor : String
  product : String
  path : String
  driver_idx : Nat
deriving DecidableEq, Repr

/-- Modelled from the spec: an open device handle (spec §3 "Device
Handle": reference to its driver — retained as an index into the
registry — and driver-private state). -/
structure ohmd_device where
  driver_idx : Nat
  st : DriverState
deriving DecidableEq, Repr

/-- Modelled from the spec: the context object (spec §3 "Context": set of
registered drivers, immutable after init; last enumeration table; set of
open device handles; last-error message).  The C struct behind
`ohmd_context` is not in src/.  An open handle is addressed by its index
in `devices`; handles are only ever appended, so a handle index stays
valid for the context's lifetime. -/
structure ohmd_context where
  drivers : List Driver
  list : List ohmd_device_desc
  devices : List ohmd_device
  error_msg : String

/-- Modelled from the spec: record a failure message on the context
(spec §4.1 `get_last_error`: "the next failing call overwrites it"). -/
def set_error (ctx : ohmd_context) (msg : String) : ohmd_context :=
  { ctx with error_msg := msg }

/-- Modelled from the spec: `ohmd_ctx_create` (header lines 77-82, spec
§4.1): allocates a context with an empty enumeration table, no open
handles and no error.  Allocation failure (the header's NULL return) is
the only failure mode and is outside the model; the model returns the
fully initialized context. -/
def ohmd_ctx_create (drivers : List Driver) : ohmd_context :=
  { drivers := drivers, list := [], devices := [], error_msg := "" }

/-- `ohmd_ctx_get_error` (header lines 93-102): returns the most recent
failure message recorded on the context; reading does not clear it. -/
def ohmd_ctx_get_error (ctx : ohmd_context) : String :=
  ctx.error_msg

/-- Truncate a discovered string to fit a `char[OHMD_STR_SIZE]` buffer
with its terminating NUL, as storing it in an enumeration entry must
(spec §3: entries hold "bounded-length" strings; header line 29). -/
def strTrunc (s : String) : String :=
  ⟨s.data.take (OHMD_STR_SIZE - 1)⟩

/-- Modelled from the spec: the enumeration entries contributed by one
driver during a probe (spec §4.1 `probe`: "queries every registered
driver"; a driver that fails to enumerate is "treated as zero entries
from that driver, not a context-wide failure"). -/
def driverEntries (idx : Nat) (d : Driver) : List ohmd_device_desc :=
  match d.discover with
  | none => []
  | some l =>
      l.map fun t =>
        { vendor := strTrunc t.1, product := strTrunc t.2.1,
          path := strTrunc t.2.2, driver_idx := idx }

/-- Modelled from the spec: the enumeration table a probe of the driver
registry produces, starting the driver numbering at `i`: every driver is
queried, in registry order, and its entries are appended. -/
def probeEntriesFrom (i : Nat) : List Driver → List ohmd_device_desc
  | [] => []
  | d :: rest => driverEntries i d ++ probeEntriesFrom (i + 1) rest

/-- Modelled from the spec: the whole enumeration table a probe of the
given driver registry produces. -/
def probeEntries (drivers : List Driver) : List ohmd_device_desc :=
  probeEntriesFrom 0 drivers

/-- The number of devices one driver reports during discovery. -/
def driverCount (d : Driver) : Nat :=
  match d.discover with
  | none => 0
  | some l => l.length

/-- Modelled from the spec: `ohmd_ctx_probe` (header lines 117-125, spec
§4.1): queries every registered driver, replaces the enumeration table
wholesale with the new result and returns the count of entries found.
Returns 0, not an error, when no driver finds anything. -/
def ohmd_ctx_probe (ctx : ohmd_context) : Int × ohmd_context :=
  let entries := probeEntries ctx.drivers
  ((entries.length : Int), { ctx with list := entries })

/-- The string field of an enumeration entry selected by an
`ohmd_string_value` (header lines 127-142). -/
def descField (e : ohmd_device_desc) : ohmd_string_value → String
  | .OHMD_VENDOR => e.vendor
  | .OHMD_PRODUCT => e.product
  | .OHMD_PATH => e.path

/-- Modelled from the spec: `ohmd_list_gets` (header lines 127-142, spec
§4.1): returns the vendor / product / path string of the entry at
`index` when `0 ≤ index < last probe count`; on an out-of-range index
(which is every index before any probe, the table then being empty) it
fails, returning the error sentinel (`none`, the C NULL/empty string)
and overwriting the context's last-error message. -/
def ohmd_list_gets (ctx : ohmd_context) (index : Int) (ty : ohmd_string_value) :
    Option String × ohmd_context :=
  if 0 ≤ index then
    match ctx.list[index.toNat]? with
    | some e => (some (descField e ty), ctx)
    | none => (none, set_error ctx "no device with the given index")
  else
    (none, set_error ctx "no device with the given index")

/-- Modelled from the spec: `ohmd_list_open_device` (header lines
144-156, spec §4.1): resolves the enumeration entry at `index`, invokes
the owning driver's open operation, and on success registers a new
device handle under the context (appended, so existing handle indices
are untouched) and returns its handle.  On failure returns the null
reference (`none`) and sets last-error. -/
def ohmd_list_open_device (ctx : ohmd_context) (index : Int) :
    Option Nat × ohmd_context :=
  if 0 ≤ index then
    match ctx.list[index.toNat]? with
    | some e =>
        match ctx.drivers[e.driver_idx]? with
        | some d =>
            match d.openDev e.path with
            | some st =>
                (some ctx.devices.length,
                 { ctx with devices :=
                     ctx.devices ++ [{ driver_idx := e.driver_idx, st := st }] })
            | none => (none, set_error ctx "failed to open device")
        | none => (none, set_error ctx "no device with the given index")
    | none => (none, set_error ctx "no device with the given index")
  else
    (none, set_error ctx "no device with the given index")

/-- Look up the value stored under a key in a property list. -/
def lookupKey {α : Type} [DecidableEq α] (k : α) :
    List (α × List Int) → Option (List Int)
  | [] => none
  | p :: rest => if p.1 = k then some p.2 else lookupKey k rest

/-- Replace the value stored under a key in a property list. -/
def storeKey {α : Type} [DecidableEq α] (k : α) (v : List Int) :
    List (α × List Int) → List (α × List Int)
  | [] => []
  | p :: rest => if p.1 = k then (k, v) :: rest else p :: storeKey k v rest

/-- Modelled from the spec: `ohmd_device_getf` (header lines 158-166,
spec §4.2).  The property dispatcher validates that the handle is live
and that the key belongs to the float value class (spec §3: "the
dispatcher must reject a key used with the wrong class as a
type-mismatch error rather than silently coercing"), then reads the
value.  Returns the C-style status (0 on success, negative on failure),
the caller's output buffer (overwritten only on success) and the
context (its last-error message overwritten only on failure). -/
def ohmd_device_getf (ctx : ohmd_context) (dev : Nat) (key : ohmd_value_key)
    (out : List Int) : Int × List Int × ohmd_context :=
  match ctx.devices[dev]? with
  | none => (-1, out, set_error ctx "invalid device handle")
  | some d =>
      match key with
      | .intKey _ => (-1, out, set_error ctx "type mismatch: not a float value")
      | .floatKey k =>
          match lookupKey k d.st.fprops with
          | some v => (0, v, ctx)
          | none => (-2, out, set_error ctx "unsupported key")

/-- Modelled from the spec: `ohmd_device_setf` (header lines 168-176,
spec §4.2).  Same class validation as `ohmd_device_getf`; a key the
driver does not support setting is a no-op failure.  Returns the
C-style status and the context (the addressed handle's stored value
updated only on success). -/
def ohmd_device_setf (ctx : ohmd_context) (dev : Nat) (key : ohmd_value_key)
    (inp : List Int) : Int × ohmd_context :=
  match ctx.devices[dev]? with
  | none => (-1, set_error ctx "invalid device handle")
  | some d =>
      match key with
      | .intKey _ => (-1, set_error ctx "type mismatch: not a float value")
      | .floatKey k =>
          if k ∈ d.st.fset then
            let d2 : ohmd_device :=
              { d with st := { d.st with fprops := storeKey k inp d.st.fprops } }
            (0, { ctx with devices := ctx.devices.set dev d2 })
          else
            (-2, set_error ctx "unsupported key")

/-- Modelled from the spec: `ohmd_device_geti` (header lines 178-186,
spec §4.2): the integer-class counterpart of `ohmd_device_getf`,
restricted to the integer-valued key class. -/
def ohmd_device_geti (ctx : ohmd_context) (dev : Nat) (key : ohmd_value_key)
    (out : List Int) : Int × List Int × ohmd_context :=
  match ctx.devices[dev]? with
  | none => (-1, out, set_error ctx "invalid device handle")
  | some d =>
      match key with
      | .floatKey _ => (-1, out, set_error ctx "type mismatch: not an int value")
      | .intKey k =>
          match lookupKey k d.st.iprops with
          | some v => (0, v, ctx)
          | none => (-2, out, set_error ctx "unsupported key")

/-- Modelled from the spec: one device's per-tick refresh (spec §4.1
`update`): the handle's retained driver reference resolves the driver,
whose `tick` hook advances the handle's driver-private state. -/
def deviceTick (drivers : List Driver) (d : ohmd_device) : ohmd_device :=
  match drivers[d.driver_idx]? with
  | some drv => { d with st := drv.tick d.st }
  | none => d

/-- Modelled from the spec: `ohmd_ctx_update` (header lines 104-115,
spec §4.1): invokes every open device's per-tick refresh hook.  It is a
plain total function of the context state: it runs to completion
synchronously and consumes no input beyond the state already present
(the model's rendering of "does not block waiting for new sensor
data — reads whatever is currently available"). -/
def ohmd_ctx_update (ctx : ohmd_context) : ohmd_context :=
  { ctx with devices := ctx.devices.map (deviceTick ctx.drivers) }

/-- Modelled from the spec: close one open handle through its driver,
reporting whether the driver's close succeeded (spec §6 `close(state)`,
§7 partial failure during destroy). -/
def closeDevice (drivers : List Driver) (d : ohmd_device) : Bool :=
  match drivers[d.driver_idx]? with
  | some drv => drv.closeDev d.st
  | none => false

/-- Modelled from the spec: close every open handle in order, recording
each attempt's outcome; one handle's failure never stops the traversal
(spec §4.1 `destroy`, §7: "Partial failure during destroy (one handle
fails to close cleanly) must not abort closing the remaining
handles"). -/
def closeAll (drivers : List Driver) : List ohmd_device → List Bool
  | [] => []
  | d :: rest => closeDevice drivers d :: closeAll drivers rest

/-- Modelled from the spec: `ohmd_ctx_destroy` (header lines 84-91, spec
§4.1): closes every open device handle best-effort, then releases the
context.  The C function returns nothing and frees the memory; the model
returns the trace of close outcomes, which is the context's entire
observable effect. -/
def ohmd_ctx_destroy (ctx : ohmd_context) : List Bool :=
  closeAll ctx.drivers ctx.devices

/-! ## Concrete fixtures

A tiny concrete driver and the contexts it yields, used to instantiate
the verified contracts on closed inputs. -/

/-- Driver-private state of the concrete test device: a rotation
quaternion and an IPD among the float properties (the IPD settable), and
both screen resolutions among the integer properties. -/
def testState : DriverState :=
  { fprops := [(.OHMD_ROTATION_QUAT, [1, 0, 0, 0]), (.OHMD_EYE_IPD, [61])],
    iprops := [(.OHMD_SCREEN_HORIZONTAL_RESOLUTION, [1280]),
               (.OHMD_SCREEN_VERTICAL_RESOLUTION, [800])],
    fset := [.OHMD_EYE_IPD],
    closeOk := true }

/-- A concrete driver that discovers one device and opens it. -/
def testDriver : Driver :=
  { discover := some [("TestVendor", "TestHMD", "usb:0")],
    openDev := fun _ => some testState,
    tick := fun s => s,
    closeDev := fun s => s.closeOk }

/-- A concrete driver that fails to enumerate. -/
def failDriver : Driver :=
  { discover := none,
    openDev := fun _ => none,
    tick := fun s => s,
    closeDev := fun _ => false }

/-- A freshly created context over the one-device registry. -/
def testCtx0 : ohmd_context :=
  ohmd_ctx_create [testDriver]

/-- The test context after its first probe. -/
def testCtx : ohmd_context :=
  (ohmd_ctx_probe testCtx0).2

/-- The test context after probing and opening the device at index 0;
handle 0 is then open. -/
def testCtxD : ohmd_context :=
  (ohmd_list_open_device testCtx 0).2

/-- A context with two open handles whose first close fails and second
succeeds. -/
def ctxTwo : ohmd_context :=
  { drivers := [testDriver], list := [],
    devices := [{ driver_idx := 0, st := { testState with closeOk := false } },
                { driver_idx := 0, st := testState }],
    error_msg := "" }

/-! ## Helper lemmas -/

/-- Strings stored through `strTrunc` fit the `char[OHMD_STR_SIZE]`
buffer together with its terminating NUL. -/
theorem strTrunc_length (s : String) : (strTrunc s).length < OHMD_STR_SIZE := by
  have h : (strTrunc s).length = (s.data.take (OHMD_STR_SIZE - 1)).length := rfl
  rw [h, List.length_take]
  unfold OHMD_STR_SIZE
  omega

/-- Each driver contributes exactly the devices it discovers. -/
theorem driverEntries_length (i : Nat) (d : Driver) :
    (driverEntries i d).length = driverCount d := by
  unfold driverEntries driverCount
  cases d.discover <;> simp

/-- A driver that fails to enumerate contributes zero entries. -/
theorem driverEntries_none {i : Nat} {d : Driver} (h : d.discover = none) :
    driverEntries i d = [] := by
  simp [driverEntries, h]

/-- The table built by a probe has one entry per discovered device,
summed over every registered driver. -/
theorem probeEntriesFrom_length (i : Nat) (ds : List Driver) :
    (probeEntriesFrom i ds).length = (ds.map driverCount).sum := by
  induction ds generalizing i with
  | nil => rfl
  | cons d rest ih => simp [probeEntriesFrom, driverEntries_length, ih]

/-- When no registered driver can enumerate, the probe table is empty. -/
theorem probeEntriesFrom_nil (i : Nat) (ds : List Driver)
    (h : ∀ d ∈ ds, d.discover = none) : probeEntriesFrom i ds = [] := by
  induction ds generalizing i with
  | nil => rfl
  | cons d rest ih =>
      simp [probeEntriesFrom, driverEntries_none (h d (by simp)),
        ih _ (fun x hx => h x (by simp [hx]))]

/-- Every entry a driver contributes carries truncated, hence bounded,
strings. -/
theorem bounds_of_mem_driverEntries {e : ohmd_device_desc} {i : Nat} {d : Driver}
    (h : e ∈ driverEntries i d) :
    e.vendor.length < OHMD_STR_SIZE ∧ e.product.length < OHMD_STR_SIZE ∧
      e.path.length < OHMD_STR_SIZE := by
  unfold driverEntries at h
  cases hd : d.discover with
  | none => rw [hd] at h; simp at h
  | some l =>
      rw [hd] at h
      simp only [List.mem_map] at h
      obtain ⟨t, _, rfl⟩ := h
      exact ⟨strTrunc_length _, strTrunc_length _, strTrunc_length _⟩

/-- Every entry in the probe table carries bounded strings. -/
theorem bounds_of_mem_probeEntriesFrom {e : ohmd_device_desc} {i : Nat}
    {ds : List Driver} (h : e ∈ probeEntriesFrom i ds) :
    e.vendor.length < OHMD_STR_SIZE ∧ e.product.length < OHMD_STR_SIZE ∧
      e.path.length < OHMD_STR_SIZE := by
  induction ds generalizing i with
  | nil => simp [probeEntriesFrom] at h
  | cons d rest ih =>
      rw [probeEntriesFrom, List.mem_append] at h
      rcases h with h | h
      · exact bounds_of_mem_driverEntries h
      · exact ih h

/-- Closing all handles is an independent per-handle traversal. -/
theorem closeAll_eq_map (drivers : List Driver) (devs : List ohmd_device) :
    closeAll drivers devs = devs.map (closeDevice drivers) := by
  induction devs with
  | nil => rfl
  | cons d rest ih => simp [closeAll, ih]

/-- A successful float read is determined by the open-handle set alone:
any context holding the same handles answers the same read, itself
unchanged. -/
theorem getf_of_devices_eq {ctx ctx2 : ohmd_context} (hdev : ctx2.devices = ctx.devices)
    {hnd : Nat} {key : ohmd_value_key} {out v : List Int}
    (hs : ohmd_device_getf ctx hnd key out = (0, v, ctx)) :
    ohmd_device_getf ctx2 hnd key out = (0, v, ctx2) := by
  unfold ohmd_device_getf at hs ⊢
  rw [hdev]
  cases hg : ctx.devices[hnd]? with
  | none => rw [hg] at hs; simp at hs
  | some d =>
      rw [hg] at hs
      cases key with
      | intKey k => simp at hs
      | floatKey k =>
          cases hl : lookupKey k d.st.fprops with
          | none => simp [hl] at hs
          | some w => simp [hl] at hs; simp [hl, hs]

/-- A successful integer read is determined by the open-handle set
alone, like `getf_of_devices_eq`. -/
theorem geti_of_devices_eq {ctx ctx2 : ohmd_context} (hdev : ctx2.devices = ctx.devices)
    {hnd : Nat} {key : ohmd_value_key} {out v : List Int}
    (hs : ohmd_device_geti ctx hnd key out = (0, v, ctx)) :
    ohmd_device_geti ctx2 hnd key out = (0, v, ctx2) := by
  unfold ohmd_device_geti at hs ⊢
  rw [hdev]
  cases hg : ctx.devices[hnd]? with
  | none => rw [hg] at hs; simp at hs
  | some d =>
      rw [hg] at hs
      cases key with
      | floatKey k => simp at hs
      | intKey k =>
          cases hl : lookupKey k d.st.iprops with
          | none => simp [hl] at hs
          | some w => simp [hl] at hs; simp [hl, hs]

/-! ## Claim theorems -/

/-- C5: a context returned by `ohmd_ctx_create` starts with an empty
enumeration table, no open device handles, the driver registry it was
given, and no recorded error: `ohmd_ctx_get_error` immediately after
create is the empty string.  Create is total in the model (allocation
aside, the header's only failure mode), so the context is always fully
initialized. -/
theorem C5_create_initial_state (ds : List Driver) :
    ohmd_ctx_get_error (ohmd_ctx_create ds) = "" ∧
    (ohmd_ctx_create ds).list = [] ∧
    (ohmd_ctx_create ds).devices = [] ∧
    (ohmd_ctx_create ds).drivers = ds :=
  ⟨rfl, rfl, rfl, rfl⟩

/-- C9: the value-key enumerations are static, collision-free and
partitioned into exactly two value classes: the numeric codes are
injective within the float-valued key space and within the
integer-valued key space, a key is determined by its (class, code)
pair, and every key belongs to exactly one of the two classes. -/
theorem C9_key_space_partition :
    Function.Injective ohmd_float_value.code ∧
    Function.Injective ohmd_int_value.code ∧
    Function.Injective (fun k : ohmd_value_key => (key_class k, key_code k)) ∧
    (∀ k : ohmd_value_key, Xor' (key_class k = value_class.floatClass)
        (key_class k = value_class.intClass)) := by
  refine ⟨?_, ?_, ?_, ?_⟩ <;> decide

/-- C3: `ohmd_ctx_probe` queries every registered driver (the returned
count is the sum of every driver's discovery count), replaces the
enumeration table wholesale in one step — every other context field is
untouched — and returns the count of entries found; a driver that fails
to enumerate contributes zero entries, and when no driver can
enumerate, probe returns 0 with an empty table rather than an error. -/
theorem C3_probe_queries_every_driver (ctx : ohmd_context) :
    ((ohmd_ctx_probe ctx).1 = ((ctx.drivers.map driverCount).sum : Int)) ∧
    ((ohmd_ctx_probe ctx).1 = ((ohmd_ctx_probe ctx).2.list.length : Int)) ∧
    ((ohmd_ctx_probe ctx).2 = { ctx with list := probeEntries ctx.drivers }) ∧
    (∀ i d, d.discover = none → driverEntries i d = []) ∧
    ((∀ d ∈ ctx.drivers, d.discover = none) →
        ohmd_ctx_probe ctx = (0, { ctx with list := [] })) := by
  refine ⟨?_, rfl, rfl, fun i d h => driverEntries_none h, fun h => ?_⟩
  · simp [ohmd_ctx_probe, probeEntries, probeEntriesFrom_length]
  · simp [ohmd_ctx_probe, probeEntries, probeEntriesFrom_nil 0 ctx.drivers h]

/-- C3 witness: on a registry whose single driver cannot enumerate,
probe returns 0 and an empty table, and the failing driver contributes
zero entries. -/
theorem C3_probe_queries_every_driver_witness :
    ohmd_ctx_probe (ohmd_ctx_create [failDriver])
      = (0, { ohmd_ctx_create [failDriver] with list := [] }) ∧
    driverEntries 0 failDriver = [] := by
  refine ⟨(C3_probe_queries_every_driver (ohmd_ctx_create [failDriver])).2.2.2.2 ?_,
    (C3_probe_queries_every_driver (ohmd_ctx_create [failDriver])).2.2.2.1 0 failDriver rfl⟩
  intro d hd
  simp only [ohmd_ctx_create, List.mem_singleton] at hd
  rw [hd]
  rfl

/-- C7: `ohmd_ctx_destroy` attempts to close every open handle
best-effort — the trace of close outcomes has one entry per open
handle, and each handle's outcome is its own driver close result,
independent of any other handle's failure; on a context with zero open
handles the trace is empty (no side effect beyond releasing the
context). -/
theorem C7_destroy_best_effort (ctx : ohmd_context) :
    ((ohmd_ctx_destroy ctx).length = ctx.devices.length) ∧
    (∀ i : Nat, (ohmd_ctx_destroy ctx)[i]?
        = ctx.devices[i]?.map (closeDevice ctx.drivers)) ∧
    (ctx.devices = [] → ohmd_ctx_destroy ctx = []) := by
  refine ⟨?_, fun i => ?_, fun h => ?_⟩
  · simp [ohmd_ctx_destroy, closeAll_eq_map]
  · simp [ohmd_ctx_destroy, closeAll_eq_map, List.getElem?_map]
  · simp [ohmd_ctx_destroy, h, closeAll]

/-- C7 witness: destroying a context with no open handles produces the
empty close trace, and on a context whose first handle fails to close,
the second handle is still closed (successfully). -/
theorem C7_destroy_best_effort_witness :
    ohmd_ctx_destroy (ohmd_ctx_create [testDriver]) = [] ∧
    (ohmd_ctx_destroy ctxTwo)[0]? = some false ∧
    (ohmd_ctx_destroy ctxTwo)[1]? = some true := by
  refine ⟨(C7_destroy_best_effort (ohmd_ctx_create [testDriver])).2.2 rfl, ?_, ?_⟩
  · rw [(C7_destroy_best_effort ctxTwo).2.1 0]; decide
  · rw [(C7_destroy_best_effort ctxTwo).2.1 1]; decide

/-- C8: `ohmd_ctx_update` invokes every open device's per-tick refresh
hook exactly once — the handle set keeps its length and the handle at
each index is ticked through its retained driver — while touching no
other context state; and a sequence of update calls is synchronous:
the (n+1)-st call starts from the completed result of the n-th.  The
model's update is a total function of the present state, which is the
shallow rendering of "runs to completion and never blocks waiting for
new data". -/
theorem C8_update_ticks_every_device (ctx : ohmd_context) (n : Nat) :
    ((ohmd_ctx_update ctx).devices.length = ctx.devices.length) ∧
    (∀ i : Nat, (ohmd_ctx_update ctx).devices[i]?
        = ctx.devices[i]?.map (deviceTick ctx.drivers)) ∧
    ((ohmd_ctx_update ctx).drivers = ctx.drivers) ∧
    ((ohmd_ctx_update ctx).list = ctx.list) ∧
    ((ohmd_ctx_update ctx).error_msg = ctx.error_msg) ∧
    (ohmd_ctx_update^[n + 1] ctx = ohmd_ctx_update (ohmd_ctx_update^[n] ctx)) := by
  refine ⟨by simp [ohmd_ctx_update], fun i => ?_, rfl, rfl, rfl,
    Function.iterate_succ_apply' _ _ _⟩
  simp [ohmd_ctx_update, List.getElem?_map]

/-- C1: after `ohmd_ctx_probe` has returned count `n` with context
`ctx1`, `ohmd_list_gets` succeeds on every index in `[0, n)` (yielding a
string and leaving the context untouched) and fails on every index
outside that range, returning the error sentinel and overwriting the
context's last-error message; on a freshly created, never-probed
context it fails for every index the same way. -/
theorem C1_list_gets_range (ctx ctx1 : ohmd_context) (n : Int)
    (hprobe : ohmd_ctx_probe ctx = (n, ctx1)) (i : Int) (ty : ohmd_string_value) :
    (0 ≤ i ∧ i < n → ∃ s, ohmd_list_gets ctx1 i ty = (some s, ctx1)) ∧
    (i < 0 ∨ n ≤ i →
      (ohmd_list_gets ctx1 i ty).1 = none ∧
      (ohmd_list_gets ctx1 i ty).2.error_msg = "no device with the given index") ∧
    (∀ ds : List Driver,
      (ohmd_list_gets (ohmd_ctx_create ds) i ty).1 = none ∧
      (ohmd_list_gets (ohmd_ctx_create ds) i ty).2.error_msg
        = "no device with the given index") := by
  have hn : n = ((probeEntries ctx.drivers).length : Int) := by
    have h1 := congrArg Prod.fst hprobe
    simpa [ohmd_ctx_probe] using h1.symm
  have hc : ctx1 = { ctx with list := probeEntries ctx.drivers } := by
    have h2 := congrArg Prod.snd hprobe
    simpa [ohmd_ctx_probe] using h2.symm
  have hlen : (ctx1.list.length : Int) = n := by rw [hc, hn]
  refine ⟨?_, ?_, ?_⟩
  · rintro ⟨h0, hi⟩
    have hlt : i.toNat < ctx1.list.length := by omega
    refine ⟨descField (ctx1.list.get ⟨i.toNat, hlt⟩) ty, ?_⟩
    have heq : ctx1.list[i.toNat]? = some (ctx1.list.get ⟨i.toNat, hlt⟩) := by
      rw [List.getElem?_eq_getElem hlt]
      rfl
    unfold ohmd_list_gets
    rw [if_pos h0, heq]
  · intro hout
    have hfail : ohmd_list_gets ctx1 i ty
        = (none, set_error ctx1 "no device with the given index") := by
      unfold ohmd_list_gets
      by_cases h0 : 0 ≤ i
      · have hnone : ctx1.list[i.toNat]? = none := List.getElem?_eq_none (by omega)
        rw [if_pos h0, hnone]
      · rw [if_neg h0]
    rw [hfail]
    exact ⟨rfl, rfl⟩
  · intro ds
    have hfail : ohmd_list_gets (ohmd_ctx_create ds) i ty
        = (none, set_error (ohmd_ctx_create ds) "no device with the given index") := by
      unfold ohmd_list_gets
      by_cases h0 : 0 ≤ i
      · have hnone : (ohmd_ctx_create ds).list[i.toNat]? = none :=
          List.getElem?_eq_none (by simp [ohmd_ctx_create])
        rw [if_pos h0, hnone]
      · rw [if_neg h0]
    rw [hfail]
    exact ⟨rfl, rfl⟩

/-- C1 witness: probing the one-device test registry returns 1;
`list_gets` succeeds at index 0, fails at index 5, and fails on a fresh
context. -/
theorem C1_list_gets_range_witness :
    (∃ s, ohmd_list_gets testCtx 0 ohmd_string_value.OHMD_VENDOR = (some s, testCtx)) ∧
    (ohmd_list_gets testCtx 5 ohmd_string_value.OHMD_VENDOR).1 = none ∧
    (ohmd_list_gets (ohmd_ctx_create []) 0 ohmd_string_value.OHMD_PRODUCT).1 = none :=
  ⟨(C1_list_gets_range testCtx0 testCtx 1 rfl 0 .OHMD_VENDOR).1 (by decide),
   ((C1_list_gets_range testCtx0 testCtx 1 rfl 5 .OHMD_VENDOR).2.1 (by decide)).1,
   ((C1_list_gets_range testCtx0 testCtx 1 rfl 0 .OHMD_PRODUCT).2.2 []).1⟩

/-- C2: on any open device, the dispatcher rejects a key of the wrong
value class: `ohmd_device_geti` with a float-class key, and
`ohmd_device_getf` / `ohmd_device_setf` with an integer-class key, each
fail (negative return), record a type-mismatch error on the owning
context, and leave the caller's buffer entirely unmodified. -/
theorem C2_type_mismatch_rejected (ctx : ohmd_context) (dev : Nat) (d : ohmd_device)
    (hdev : ctx.devices[dev]? = some d) (fk : ohmd_float_value) (ik : ohmd_int_value)
    (out inp : List Int) :
    ((ohmd_device_geti ctx dev (.floatKey fk) out).1 < 0) ∧
    ((ohmd_device_geti ctx dev (.floatKey fk) out).2.1 = out) ∧
    ((ohmd_device_geti ctx dev (.floatKey fk) out).2.2
        = set_error ctx "type mismatch: not an int value") ∧
    ((ohmd_device_getf ctx dev (.intKey ik) out).1 < 0) ∧
    ((ohmd_device_getf ctx dev (.intKey ik) out).2.1 = out) ∧
    ((ohmd_device_getf ctx dev (.intKey ik) out).2.2
        = set_error ctx "type mismatch: not a float value") ∧
    ((ohmd_device_setf ctx dev (.intKey ik) inp).1 < 0) ∧
    ((ohmd_device_setf ctx dev (.intKey ik) inp).2
        = set_error ctx "type mismatch: not a float value") := by
  refine ⟨?_, ?_, ?_, ?_, ?_, ?_, ?_, ?_⟩ <;>
    simp [ohmd_device_geti, ohmd_device_getf, ohmd_device_setf, hdev]

/-- C2 witness: on the opened test device, a float-class key handed to
`geti` leaves the buffer untouched, and an integer-class key handed to
`getf` fails. -/
theorem C2_type_mismatch_rejected_witness :
    ((ohmd_device_geti testCtxD 0 (.floatKey .OHMD_EYE_IPD) [3]).2.1 = [3]) ∧
    ((ohmd_device_getf testCtxD 0
        (.intKey .OHMD_SCREEN_VERTICAL_RESOLUTION) [3]).1 < 0) := by
  have h := C2_type_mismatch_rejected testCtxD 0 { driver_idx := 0, st := testState }
    (by decide) .OHMD_EYE_IPD .OHMD_SCREEN_VERTICAL_RESOLUTION [3] [3]
  exact ⟨h.2.1, h.2.2.2.1⟩

/-- C4: re-probing a context replaces the enumeration table with a
fresh discovery result (prior indices refer to nothing retained), but
leaves every already-open device handle valid: a `getf` or `geti` that
succeeded with some value before the re-probe still succeeds with the
same value on the same handle afterwards, through its retained driver
reference; the open-handle set itself is untouched by the probe. -/
theorem C4_reprobe_keeps_handles (ctx : ohmd_context) (hnd : Nat)
    (key : ohmd_value_key) (out : List Int) :
    (∀ v, ohmd_device_getf ctx hnd key out = (0, v, ctx) →
        ohmd_device_getf (ohmd_ctx_probe ctx).2 hnd key out
          = (0, v, (ohmd_ctx_probe ctx).2)) ∧
    (∀ v, ohmd_device_geti ctx hnd key out = (0, v, ctx) →
        ohmd_device_geti (ohmd_ctx_probe ctx).2 hnd key out
          = (0, v, (ohmd_ctx_probe ctx).2)) ∧
    ((ohmd_ctx_probe ctx).2.devices = ctx.devices) ∧
    ((ohmd_ctx_probe ctx).2.list = probeEntries ctx.drivers) :=
  ⟨fun v hv => @getf_of_devices_eq ctx (ohmd_ctx_probe ctx).2 rfl hnd key out v hv,
   fun v hv => @geti_of_devices_eq ctx (ohmd_ctx_probe ctx).2 rfl hnd key out v hv, rfl, rfl⟩

/-- C4 witness: the rotation read that succeeds on the opened test
handle still succeeds, with the same quaternion, after re-probing the
context. -/
theorem C4_reprobe_keeps_handles_witness :
    ohmd_device_getf (ohmd_ctx_probe testCtxD).2 0
        (.floatKey .OHMD_ROTATION_QUAT) [0, 0, 0, 0]
      = (0, [1, 0, 0, 0], (ohmd_ctx_probe testCtxD).2) :=
  (C4_reprobe_keeps_handles testCtxD 0 (.floatKey .OHMD_ROTATION_QUAT)
    [0, 0, 0, 0]).1 [1, 0, 0, 0] rfl

/-- C6: every fallible operation signals failure only through its
return value: `getf`, `setf` and `geti` return 0 on success and a
negative integer otherwise — and whenever the return is negative the
caller's output buffer is untouched, so it must be checked before the
buffer is trusted — while `list_open_device` returns either the null
reference or a handle. -/
theorem C6_sentinel_failure (ctx : ohmd_context) (dev : Nat) (key : ohmd_value_key)
    (out inp : List Int) (i : Int) :
    ((ohmd_device_getf ctx dev key out).1 = 0 ∨ (ohmd_device_getf ctx dev key out).1 < 0) ∧
    ((ohmd_device_getf ctx dev key out).1 < 0 → (ohmd_device_getf ctx dev key out).2.1 = out) ∧
    ((ohmd_device_geti ctx dev key out).1 = 0 ∨ (ohmd_device_geti ctx dev key out).1 < 0) ∧
    ((ohmd_device_geti ctx dev key out).1 < 0 → (ohmd_device_geti ctx dev key out).2.1 = out) ∧
    ((ohmd_device_setf ctx dev key inp).1 = 0 ∨ (ohmd_device_setf ctx dev key inp).1 < 0) ∧
    ((ohmd_list_open_device ctx i).1 = none ∨
      ∃ hnd, (ohmd_list_open_device ctx i).1 = some hnd) := by
  refine ⟨?_, ?_, ?_, ?_, ?_, ?_⟩
  · unfold ohmd_device_getf
    cases hg : ctx.devices[dev]? with
    | none => simp
    | some d =>
        cases key with
        | intKey k => simp
        | floatKey k => cases hl : lookupKey k d.st.fprops <;> simp [hl]
  · unfold ohmd_device_getf
    cases hg : ctx.devices[dev]? with
    | none => simp
    | some d =>
        cases key with
        | intKey k => simp
        | floatKey k => cases hl : lookupKey k d.st.fprops <;> simp [hl]
  · unfold ohmd_device_geti
    cases hg : ctx.devices[dev]? with
    | none => simp
    | some d =>
        cases key with
        | floatKey k => simp
        | intKey k => cases hl : lookupKey k d.st.iprops <;> simp [hl]
  · unfold ohmd_device_geti
    cases hg : ctx.devices[dev]? with
    | none => simp
    | some d =>
        cases key with
        | floatKey k => simp
        | intKey k => cases hl : lookupKey k d.st.iprops <;> simp [hl]
  · unfold ohmd_device_setf
    cases hg : ctx.devices[dev]? with
    | none => simp
    | some d =>
        cases key with
        | intKey k => simp
        | floatKey k => by_cases hm : k ∈ d.st.fset <;> simp [hm]
  · cases ho : (ohmd_list_open_device ctx i).1 with
    | none => exact Or.inl rfl
    | some hnd => exact Or.inr ⟨hnd, rfl⟩

/-- C6 witness: a failed integer read on the opened test device leaves
the caller's buffer exactly as it was. -/
theorem C6_sentinel_failure_witness :
    (ohmd_device_getf testCtxD 0
        (.intKey .OHMD_SCREEN_HORIZONTAL_RESOLUTION) [7]).2.1 = [7] :=
  (C6_sentinel_failure testCtxD 0 (.intKey .OHMD_SCREEN_HORIZONTAL_RESOLUTION)
    [7] [7] 0).2.1 (by decide)

/-- C10: every vendor, product and path string stored in an enumeration
entry by a probe, and hence every string `list_gets` returns on a
probed context, is strictly shorter than `OHMD_STR_SIZE = 256`, i.e.
it fits a 256-byte buffer with its terminating NUL. -/
theorem C10_entry_strings_bounded (ctx : ohmd_context) :
    (∀ e ∈ (ohmd_ctx_probe ctx).2.list,
        e.vendor.length < OHMD_STR_SIZE ∧ e.product.length < OHMD_STR_SIZE ∧
        e.path.length < OHMD_STR_SIZE) ∧
    (∀ (i : Int) (ty : ohmd_string_value) (s : String),
        (ohmd_list_gets (ohmd_ctx_probe ctx).2 i ty).1 = some s →
        s.length < OHMD_STR_SIZE) := by
  have hmem : ∀ e ∈ (ohmd_ctx_probe ctx).2.list,
      e.vendor.length < OHMD_STR_SIZE ∧ e.product.length < OHMD_STR_SIZE ∧
      e.path.length < OHMD_STR_SIZE :=
    fun e he => bounds_of_mem_probeEntriesFrom he
  refine ⟨hmem, ?_⟩
  intro i ty s hs
  unfold ohmd_list_gets at hs
  by_cases h0 : 0 ≤ i
  · rw [if_pos h0] at hs
    cases hg : ((ohmd_ctx_probe ctx).2.list)[i.toNat]? with
    | none => rw [hg] at hs; simp at hs
    | some e =>
        rw [hg] at hs
        simp only at hs
        have he := hmem e (List.getElem?_mem hg)
        cases ty <;> simp [descField] at hs <;> rw [← hs]
        · exact he.1
        · exact he.2.1
        · exact he.2.2
  · rw [if_neg h0] at hs
    simp at hs

/-- C10 witness: the vendor string of the probed test context's only
entry is within the bound. -/
theorem C10_entry_strings_bounded_witness :
    ("TestVendor".length < OHMD_STR_SIZE) :=
  (C10_entry_strings_bounded testCtx0).2 0 .OHMD_VENDOR "TestVendor" (by decide)

end OpenHMD
